import Mathlib

/-!
Verification development for the `smarthack-monitoring` news/sentiment service
(`src/service.py`).  The Python source is shallowly embedded: pure fragments
become Lean functions, the network providers (Alpha Vantage, StockNews, the
LLM completion endpoint, article web pages) become explicit function
parameters, exceptions become `Except`, nullable values become `Option`, and
the mutable per-process state of the HTTP layer (the `summarize_dict` cache)
becomes explicit state passing.  Machine floats are idealised as real numbers
with exact arithmetic; Python's `round(x, 4)` (banker's rounding) is modelled
exactly on ℝ.
-/

/-! ## Sentiment scoring (`get_sentiment`, service.py lines 41-85)

The provider's JSON feed is modelled already parsed: each feed entry carries a
list of per-ticker sentiment records whose numeric fields are real numbers
(the Python code converts the provider's strings with `float`).
-/

/-- One element of `entry['ticker_sentiment']` in the provider feed. -/
structure TickerSentiment where
  ticker : String
  relevance_score : ℝ
  ticker_sentiment_score : ℝ

/-- One element of `data['feed']` in the provider response. -/
structure FeedEntry where
  ticker_sentiment : List TickerSentiment

/-- The `{'score': …, 'label': …}` dictionary returned by `get_sentiment`. -/
structure SentimentOut where
  score : ℝ
  label : String

/-- The collection loop of `get_sentiment` (lines 60-66): for every feed entry
and every sentiment record whose ticker equals the requested ticker, collect
the pair (relevance_score, ticker_sentiment_score), in order. -/
def collectPairs (t : String) (feed : List FeedEntry) : List (ℝ × ℝ) :=
  feed.flatMap (fun e =>
    (e.ticker_sentiment.filter (fun s => s.ticker == t)).map
      (fun s => (s.relevance_score, s.ticker_sentiment_score)))

/-- `softmax` from line 52-53: `np.exp(x)/np.exp(x).sum()`, element-wise over
the vector.  On the empty vector numpy yields the empty vector (no element is
ever divided, so no error is raised). -/
noncomputable def softmax (xs : List ℝ) : List ℝ :=
  xs.map (fun x => Real.exp x / (xs.map Real.exp).sum)

/-- `np.dot` on two equal-length vectors: the sum of pairwise products.
On two empty vectors numpy yields `0.0`. -/
noncomputable def dotList (xs ys : List ℝ) : ℝ :=
  (List.zipWith (fun a b => a * b) xs ys).sum

/-- Python 3 `round(x)` (used with `ndigits` via `pyRound (x * 10^n) / 10^n`):
round-half-to-even.  At a tie (fractional part exactly 1/2) the nearest even
integer is `2 * round (x / 2)`; elsewhere it is the nearest integer. -/
noncomputable def pyRound (x : ℝ) : ℤ :=
  if Int.fract x = 1/2 then 2 * round (x / 2) else round x

/-- `round(x, 4)` from line 70. -/
noncomputable def round4 (x : ℝ) : ℝ :=
  (pyRound (x * 10000) : ℝ) / 10000

/-- `final_score` of `get_sentiment` (lines 67-70): softmax-weighted dot
product of relevances against sentiment scores, rounded to 4 decimals. -/
noncomputable def final_score (pairs : List (ℝ × ℝ)) : ℝ :=
  round4 (dotList (softmax (pairs.map Prod.fst)) (pairs.map Prod.snd))

/-- The label ladder of `get_sentiment` (lines 71-80), verbatim from the
source: `<= -0.35` Bearish, `elif <= -0.15` Somewhat-Bearish, `elif < 0.15`
Neutral, `elif < 0.35` Somewhat-Bullish, else Bullish. -/
noncomputable def sentiment_label (x : ℝ) : String :=
  if x ≤ -(35/100) then "Bearish"
  else if x ≤ -(15/100) then "Somewhat-Bearish"
  else if x < 15/100 then "Neutral"
  else if x < 35/100 then "Somewhat-Bullish"
  else "Bullish"

/-- `get_sentiment` (lines 41-85).  The provider call and JSON parse are a
parameter: `.error` is any exception inside the `try` block, which the code
logs and turns into `None`; on a parsed feed the code computes the score and
label (no exception can arise in that arithmetic, including on an empty
collection, see `collectPairs`). -/
noncomputable def get_sentiment (t : String)
    (resp : Except String (List FeedEntry)) : Option SentimentOut :=
  match resp with
  | .error _ => none
  | .ok feed =>
      some ⟨final_score (collectPairs t feed),
            sentiment_label (final_score (collectPairs t feed))⟩

lemma sentiment_label_iffs (x : ℝ) :
    (sentiment_label x = "Bearish" ↔ x ≤ -(35/100))
    ∧ (sentiment_label x = "Somewhat-Bearish" ↔ (-(35/100) < x ∧ x ≤ -(15/100)))
    ∧ (sentiment_label x = "Neutral" ↔ (-(15/100) < x ∧ x < 15/100))
    ∧ (sentiment_label x = "Somewhat-Bullish" ↔ (15/100 ≤ x ∧ x < 35/100))
    ∧ (sentiment_label x = "Bullish" ↔ 35/100 ≤ x) := by
  unfold sentiment_label
  split_ifs with h1 h2 h3 h4 <;>
    refine ⟨?_, ?_, ?_, ?_, ?_⟩ <;>
    simp only [String.reduceEq, false_iff, true_iff, iff_false, iff_true] <;>
    first
      | linarith
      | (constructor <;> linarith)
      | (rintro ⟨a, b⟩; linarith)

lemma round4_zero : round4 0 = 0 := by
  unfold round4 pyRound
  rw [zero_mul]
  rw [if_neg (by rw [Int.fract_zero]; norm_num)]
  simp

lemma final_score_nil : final_score [] = 0 := by
  unfold final_score dotList softmax
  simpa using round4_zero

lemma sentiment_label_zero : sentiment_label 0 = "Neutral" :=
  (sentiment_label_iffs 0).2.2.1.mpr (by norm_num)

lemma get_sentiment_of_no_pairs (t : String) (feed : List FeedEntry)
    (h : collectPairs t feed = []) :
    get_sentiment t (.ok feed) = some ⟨0, "Neutral"⟩ := by
  show some _ = some _
  rw [h, final_score_nil, sentiment_label_zero]

/-- A concrete provider feed whose single entry carries sentiment only for a
ticker other than the requested one: zero (relevance, polarity) pairs get
collected for the requested ticker. -/
def c5feed : List FeedEntry := [⟨[⟨"AAPL", 1, 1⟩]⟩]

lemma c5feed_no_pairs : collectPairs "IBM" c5feed = [] := by
  simp [collectPairs, c5feed]

lemma round4_of_int_div (p : ℝ) (k : ℤ) (hk : p = (k : ℝ) / 10000) :
    round4 p = p := by
  unfold round4 pyRound
  have hx : p * 10000 = (k : ℝ) := by rw [hk]; field_simp
  rw [hx, if_neg (by rw [Int.fract_intCast]; norm_num), round_intCast, hk]

lemma softmax_single (r : ℝ) : softmax [r] = [1] := by
  unfold softmax
  simp [div_self (Real.exp_ne_zero r)]

lemma final_score_single (r p : ℝ) : final_score [(r, p)] = round4 p := by
  unfold final_score
  rw [show ([(r, p)].map Prod.fst) = [r] from rfl,
      show ([(r, p)].map Prod.snd) = [p] from rfl, softmax_single]
  unfold dotList
  norm_num

lemma round4_tiny : round4 (1/100000) = 0 := by
  unfold round4 pyRound
  have hx : (1/100000 : ℝ) * 10000 = 1/10 := by norm_num
  rw [hx]
  rw [if_neg (by
    rw [Int.fract_eq_self.mpr (by constructor <;> norm_num)]
    norm_num)]
  rw [round_eq]
  norm_num

/-- C4: the sentiment label thresholds of `get_sentiment` are exact and
exhaustive: "Bearish" exactly on x ≤ −0.35, "Somewhat-Bearish" exactly on
−0.35 < x ≤ −0.15, "Neutral" exactly on −0.15 < x < 0.15,
"Somewhat-Bullish" exactly on 0.15 ≤ x < 0.35, "Bullish" exactly on
x ≥ 0.35; in particular −0.35 ↦ "Bearish", −0.15 ↦ "Somewhat-Bearish",
0 ↦ "Neutral", 0.15 ↦ "Somewhat-Bullish", 0.35 ↦ "Bullish". -/
theorem sentiment_label_thresholds_exact :
    (∀ x : ℝ,
      (sentiment_label x = "Bearish" ↔ x ≤ -(35/100))
      ∧ (sentiment_label x = "Somewhat-Bearish" ↔ (-(35/100) < x ∧ x ≤ -(15/100)))
      ∧ (sentiment_label x = "Neutral" ↔ (-(15/100) < x ∧ x < 15/100))
      ∧ (sentiment_label x = "Somewhat-Bullish" ↔ (15/100 ≤ x ∧ x < 35/100))
      ∧ (sentiment_label x = "Bullish" ↔ 35/100 ≤ x))
    ∧ sentiment_label (-(35/100)) = "Bearish"
    ∧ sentiment_label (-(15/100)) = "Somewhat-Bearish"
    ∧ sentiment_label 0 = "Neutral"
    ∧ sentiment_label (15/100) = "Somewhat-Bullish"
    ∧ sentiment_label (35/100) = "Bullish" :=
  ⟨sentiment_label_iffs,
   (sentiment_label_iffs _).1.mpr (by norm_num),
   (sentiment_label_iffs _).2.1.mpr (by norm_num),
   (sentiment_label_iffs _).2.2.1.mpr (by norm_num),
   (sentiment_label_iffs _).2.2.2.1.mpr (by norm_num),
   (sentiment_label_iffs _).2.2.2.2.mpr (by norm_num)⟩

/-- C5 counterexample: for a request whose feed carries zero sentiment entries
for the requested ticker, `get_sentiment` does NOT return an absent result:
it returns `{'score': 0.0, 'label': 'Neutral'}`, the value computed by the
degenerate softmax-over-empty-vector pipeline (empty softmax, empty dot
product = 0). -/
theorem get_sentiment_empty_pairs_counterexample :
    get_sentiment "IBM" (.ok c5feed) = some ⟨0, "Neutral"⟩
    ∧ get_sentiment "IBM" (.ok c5feed) ≠ none := by
  have h := get_sentiment_of_no_pairs "IBM" c5feed c5feed_no_pairs
  exact ⟨h, by rw [h]; exact Option.some_ne_none _⟩

/-- C5 amended: for every request in which zero feed entries carry a sentiment
entry for the exact requested ticker, `get_sentiment` does not raise and does
not return absent: the degenerate empty softmax yields an empty dot product,
so the returned value is score 0 with label "Neutral". -/
theorem get_sentiment_empty_pairs_neutral (t : String) (feed : List FeedEntry)
    (h : collectPairs t feed = []) :
    get_sentiment t (.ok feed) = some ⟨0, "Neutral"⟩ :=
  get_sentiment_of_no_pairs t feed h

/-- C5 witness: the amended theorem at a concrete feed whose only sentiment
entry is for a different ticker. -/
theorem get_sentiment_empty_pairs_neutral_witness :
    get_sentiment "MSFT" (.ok c5feed) = some ⟨0, "Neutral"⟩ :=
  get_sentiment_empty_pairs_neutral "MSFT" c5feed (by simp [collectPairs, c5feed])

/-- C7 counterexample: for a single (relevance, polarity) pair the aggregate
score does NOT always equal the polarity exactly: with polarity 1/100000 the
4-decimal rounding of line 70 collapses the score to 0. -/
theorem single_pair_score_counterexample :
    final_score [((0 : ℝ), 1/100000)] = 0
    ∧ final_score [((0 : ℝ), 1/100000)] ≠ 1/100000 := by
  have h := (final_score_single 0 (1/100000)).trans round4_tiny
  exact ⟨h, by rw [h]; norm_num⟩

/-- C7 amended: for a single (relevance, polarity) pair the softmax weight of
the single element is exactly 1, and the aggregate score equals the pair's
polarity rounded to 4 decimal digits; it equals the polarity exactly whenever
the polarity is an integer multiple of 1/10000. -/
theorem single_pair_score_rounded (r p : ℝ) :
    softmax [r] = [1]
    ∧ final_score [(r, p)] = round4 p
    ∧ (∀ k : ℤ, p = (k : ℝ) / 10000 → final_score [(r, p)] = p) :=
  ⟨softmax_single r, final_score_single r p,
   fun k hk => (final_score_single r p).trans (round4_of_int_div p k hk)⟩

/-- C7 witness: relevance 2, polarity 3/10000 (a 4-decimal value): the
aggregate equals the polarity. -/
theorem single_pair_score_rounded_witness :
    final_score [((2 : ℝ), 3/10000)] = 3/10000 :=
  (single_pair_score_rounded 2 (3/10000)).2.2 3 (by norm_num)

/-! ## Webpage text extraction (`extract_text_from_html`, service.py lines 88-108)

The markup parser itself is not embedded: the extractor is modelled on parsed
documents (a list of top-level nodes, each a text node or an element with a
tag name, attributes and children), which is the structure BeautifulSoup hands
to the removal/extraction code.  All character-level processing that follows
the parse (get_text, splitlines, strip, split on two spaces, blank-line drop,
join) is embedded exactly, over `List Char`.
-/

/-- A parsed HTML node: a text node, or an element with tag name, attribute
list and children. -/
inductive Html where
  | text (s : String) : Html
  | elem (tag : String) (attrs : List (String × String)) (children : List Html) : Html

/-- The list passed to `soup([...])` on line 93, verbatim.  BeautifulSoup's
`soup(list)` is `find_all(name=list)`, and a list given as `name` is matched
against TAG NAMES only: the three CSS-style entries can only ever match an
element literally named `[role="navigation"]`, `.popup` or `#popup`. -/
def noiseNames : List String :=
  ["script", "style", "header", "footer", "nav",
   "[role=\"navigation\"]", ".popup", "#popup"]

/-- The decompose loop of lines 93-94: every element whose tag name matches
the `find_all` list is removed together with its whole subtree (`decompose`
destroys descendants as well). -/
def pruneChildren : List Html → List Html
  | [] => []
  | .text s :: rest => .text s :: pruneChildren rest
  | .elem tag attrs ch :: rest =>
      if tag ∈ noiseNames then pruneChildren rest
      else .elem tag attrs (pruneChildren ch) :: pruneChildren rest

/-- `soup.get_text()` (line 97): concatenation of all text nodes in document
order, with no separators. -/
def getTextList : List Html → List Char
  | [] => []
  | .text s :: rest => s.toList ++ getTextList rest
  | .elem _ _ ch :: rest => getTextList ch ++ getTextList rest

/-- Python `str.splitlines()` (line 100): split on line boundaries, treating
`\r\n` as a single boundary, with no trailing empty line for a trailing
boundary (and `[]` for the empty string). -/
def splitLinesAux : List Char → List Char → List (List Char)
  | [], acc => if acc.isEmpty then [] else [acc.reverse]
  | '\r' :: '\n' :: rest, acc => acc.reverse :: splitLinesAux rest []
  | '\r' :: rest, acc => acc.reverse :: splitLinesAux rest []
  | '\n' :: rest, acc => acc.reverse :: splitLinesAux rest []
  | c :: rest, acc => splitLinesAux rest (c :: acc)

def pySplitLines (s : List Char) : List (List Char) :=
  splitLinesAux s []

/-- The whitespace stripped by Python `str.strip()` with no argument (the
ASCII part; the exotic unicode space characters never arise in this
development). -/
def isPySpace (c : Char) : Bool :=
  c = ' ' || c = '\t' || c = '\n' || c = '\r' || c = '\x0b' || c = '\x0c'

/-- Python `str.strip()`: drop leading and trailing whitespace. -/
def pyStrip (l : List Char) : List Char :=
  ((l.dropWhile isPySpace).reverse.dropWhile isPySpace).reverse

/-- Python `str.split("  ")` (line 103): split on non-overlapping occurrences
of two spaces, left to right, keeping empty fragments. -/
def splitTwoSpacesAux : List Char → List Char → List (List Char)
  | [], acc => [acc.reverse]
  | ' ' :: ' ' :: rest, acc => acc.reverse :: splitTwoSpacesAux rest []
  | c :: rest, acc => splitTwoSpacesAux rest (c :: acc)

def splitTwoSpaces (l : List Char) : List (List Char) :=
  splitTwoSpacesAux l []

/-- `extract_text_from_html` (lines 88-108) on a parsed document: decompose
the matching elements, take the remaining text, strip each line, split lines
on double spaces, strip the fragments, drop blank fragments, rejoin with
single newlines. -/
def extract_text_from_html (doc : List Html) : List Char :=
  let text := getTextList (pruneChildren doc)
  let lines := (pySplitLines text).map pyStrip
  let chunks := (lines.flatMap splitTwoSpaces).map pyStrip
  List.intercalate ['\n'] (chunks.filter (fun c => !c.isEmpty))

/-- C6 failing input: the parse of
`<div role="navigation">MENU</div><p>body</p>` followed by the parse of
`<nav>MENU</nav><p>body</p>` and of `<div class="popup">POP</div><p>body</p>`. -/
def c6RoleDoc : List Html :=
  [.elem "div" [("role", "navigation")] [.text "MENU"],
   .elem "p" [] [.text "body"]]

def c6NavDoc : List Html :=
  [.elem "nav" [] [.text "MENU"],
   .elem "p" [] [.text "body"]]

def c6PopupDoc : List Html :=
  [.elem "div" [("class", "popup")] [.text "POP"],
   .elem "p" [] [.text "body"]]

/-- C6: the extractor does NOT remove navigation-role elements or the popup
class/id elements: `find_all` matches the noise list against tag names only,
so the text "MENU" of a `<div role="navigation">` and the text "POP" of a
`<div class="popup">` survive into the output, while a true `<nav>` element
(matched by name) is removed.  This contradicts both the code's evident
intent (the selectors were written to be removed) and the claim. -/
theorem extract_text_keeps_role_and_popup_elements :
    extract_text_from_html c6RoleDoc = "MENUbody".toList
    ∧ extract_text_from_html c6PopupDoc = "POPbody".toList
    ∧ extract_text_from_html c6NavDoc = "body".toList := by
  refine ⟨?_, ?_, ?_⟩ <;>
    simp [extract_text_from_html, c6RoleDoc, c6PopupDoc, c6NavDoc,
      pruneChildren, getTextList, noiseNames, pySplitLines, splitLinesAux,
      pyStrip, isPySpace, splitTwoSpaces, splitTwoSpacesAux, List.intercalate,
      String.toList]

/-! ## News listing (`get_news_from_stocknews` /
`get_news_page_from_stocknews`, service.py lines 159-200)

The StockNews provider is a parameter mapping a page number to the HTTP
response for that page (the code requests consecutive pages with a fixed page
size).  The article scrape performed inside `Article.__init__`
(`get_text_content`, line 135) is a parameter from URL to optional text —
`None` models a failed fetch, `some ""` an empty extraction; Python's
`if not article.long_content` treats both as falsy.  The unbounded `while`
loop is embedded with explicit fuel: `none` means the loop has not terminated
within the given number of iterations, for any fuel.
-/

/-- Python's substring test `pat in hay` over the characters of the strings. -/
def containsSub (hay pat : List Char) : Bool :=
  if pat.isPrefixOf hay then true
  else
    match hay with
    | [] => false
    | _ :: t => containsSub t pat

/-- The in-memory article record (class `Article`, lines 130-156):
`long_content` is filled at construction by scraping the URL,
`long_content_summary` starts absent. -/
structure Article where
  url : String
  title : String
  short_content : String
  long_content : Option String
  long_content_summary : Option String
deriving DecidableEq

/-- One element of the provider's `data` array (line 188-194). -/
structure RawEntry where
  news_url : String
  title : String
  text : String
deriving DecidableEq

/-- The provider's HTTP response for one page request. -/
structure PageResp where
  status_code : ℕ
  data : List RawEntry
  text : String
deriving DecidableEq

/-- `Article.__init__` (lines 131-136) for one raw entry:
`long_content` is the synchronous scrape of the entry URL. -/
def mkArticle (scrape : String → Option String) (e : RawEntry) : Article :=
  ⟨e.news_url, e.title, e.text, scrape e.news_url, none⟩

/-- Python falsiness of `article.long_content` (line 195): `None` or `""`. -/
def longContentFalsy : Option String → Bool
  | none => true
  | some s => s == ""

/-- The entry loop of `get_news_page_from_stocknews` (lines 189-197): skip
entries whose URL contains "youtube", build the article (scraping its page),
skip articles with falsy `long_content`. -/
def processEntries (scrape : String → Option String) : List RawEntry → List Article
  | [] => []
  | e :: rest =>
      if containsSub e.news_url.toList "youtube".toList then
        processEntries scrape rest
      else if longContentFalsy (mkArticle scrape e).long_content then
        processEntries scrape rest
      else mkArticle scrape e :: processEntries scrape rest

/-- `get_news_page_from_stocknews` (lines 171-200): on status 200 return the
filtered articles of the page, otherwise raise
`Exception(f"Error: {status} - {text}")`. -/
def get_news_page_from_stocknews (scrape : String → Option String)
    (resp : PageResp) : Except String (List Article) :=
  if resp.status_code = 200 then
    .ok (processEntries scrape resp.data)
  else
    .error ("Error: " ++ toString resp.status_code ++ " - " ++ resp.text)

/-- The outcome of one whole `get_news_from_stocknews` call: the returned
list or the propagated exception, together with the pages requested from the
provider, in request order. -/
structure FetchOut where
  result : Except String (List Article)
  pages : List ℕ

/-- The `while news_count < items` loop of `get_news_from_stocknews`
(lines 159-168), with fuel.  State: next page number, articles collected so
far (`news_count` is their length: the code adds `len(news_batch)` after
extending `news` by the batch), pages requested so far. -/
def getNewsLoop (fetch : ℕ → PageResp) (scrape : String → Option String)
    (items : ℕ) : ℕ → ℕ → List Article → List ℕ → Option FetchOut
  | 0, _, _, _ => none
  | fuel + 1, page, acc, tr =>
      if items ≤ acc.length then some ⟨.ok acc, tr⟩
      else
        match get_news_page_from_stocknews scrape (fetch page) with
        | .error e => some ⟨.error e, tr ++ [page]⟩
        | .ok batch => getNewsLoop fetch scrape items fuel (page + 1) (acc ++ batch) (tr ++ [page])

/-- `get_news_from_stocknews` (lines 159-168): start at page 1 with no
articles collected. -/
def get_news_from_stocknews (fetch : ℕ → PageResp)
    (scrape : String → Option String) (items : ℕ) (fuel : ℕ) : Option FetchOut :=
  getNewsLoop fetch scrape items fuel 1 [] []

/-- The surviving articles contributed by one page (empty for a non-200 page,
which the loop in fact never passes when it returns a list). -/
def pageBatch (fetch : ℕ → PageResp) (scrape : String → Option String)
    (p : ℕ) : List Article :=
  match get_news_page_from_stocknews scrape (fetch p) with
  | .ok batch => batch
  | .error _ => []

/-- The surviving articles of pages 1..k, in order. -/
def survivors (fetch : ℕ → PageResp) (scrape : String → Option String)
    (k : ℕ) : List Article :=
  ((List.range' 1 k).map (pageBatch fetch scrape)).flatten

/-- The per-article guarantees established by the page filter: non-falsy
scraped text and no "youtube" in the URL. -/
def goodArticle (a : Article) : Prop :=
  (∃ s, a.long_content = some s ∧ s ≠ "") ∧ containsSub a.url.toList "youtube".toList = false

lemma range'_snoc (m : ℕ) : List.range' 1 m ++ [m + 1] = List.range' 1 (m + 1) := by
  have h := List.range'_append 1 m 1 1
  simp only [List.range'_one] at h
  rw [show (1 + 1 * m) = m + 1 by omega] at h
  rw [show (1 + m) = m + 1 by omega] at h
  exact h

lemma survivors_zero (fetch : ℕ → PageResp) (scrape : String → Option String) :
    survivors fetch scrape 0 = [] := rfl

lemma survivors_succ (fetch : ℕ → PageResp) (scrape : String → Option String)
    (m : ℕ) :
    survivors fetch scrape (m + 1)
      = survivors fetch scrape m ++ pageBatch fetch scrape (m + 1) := by
  unfold survivors
  rw [← range'_snoc m]
  simp

lemma get_news_page_ok_inv (scrape : String → Option String) (resp : PageResp)
    (batch : List Article)
    (h : get_news_page_from_stocknews scrape resp = .ok batch) :
    batch = processEntries scrape resp.data ∧ resp.status_code = 200 := by
  by_cases hs : resp.status_code = 200
  · unfold get_news_page_from_stocknews at h
    rw [if_pos hs] at h
    injection h with h2
    exact ⟨h2.symm, hs⟩
  · unfold get_news_page_from_stocknews at h
    rw [if_neg hs] at h
    exact Except.noConfusion h

lemma get_news_page_error_inv (scrape : String → Option String) (resp : PageResp)
    (e : String)
    (h : get_news_page_from_stocknews scrape resp = .error e) :
    resp.status_code ≠ 200
    ∧ e = "Error: " ++ toString resp.status_code ++ " - " ++ resp.text := by
  by_cases hs : resp.status_code = 200
  · unfold get_news_page_from_stocknews at h
    rw [if_pos hs] at h
    exact Except.noConfusion h
  · unfold get_news_page_from_stocknews at h
    rw [if_neg hs] at h
    injection h with h2
    exact ⟨hs, h2.symm⟩

lemma processEntries_good (scrape : String → Option String) :
    ∀ entries, ∀ a ∈ processEntries scrape entries, goodArticle a := by
  intro entries
  induction entries with
  | nil => intro a ha; simp [processEntries] at ha
  | cons e rest ih =>
      intro a ha
      rw [processEntries] at ha
      split_ifs at ha with hyt hfa
      · exact ih a ha
      · exact ih a ha
      · rcases List.mem_cons.mp ha with h | h
        · subst h
          refine ⟨?_, ?_⟩
          · rcases hsc : (mkArticle scrape e).long_content with _ | s
            · rw [hsc] at hfa; simp [longContentFalsy] at hfa
            · refine ⟨s, rfl, ?_⟩
              rw [hsc] at hfa
              simp [longContentFalsy] at hfa
              exact hfa
          · simpa [mkArticle] using hyt
        · exact ih a h

lemma getNewsLoop_good (fetch : ℕ → PageResp) (scrape : String → Option String)
    (items : ℕ) :
    ∀ fuel page acc tr out l,
      getNewsLoop fetch scrape items fuel page acc tr = some out →
      out.result = .ok l →
      (∀ a ∈ acc, goodArticle a) →
      items ≤ l.length ∧ ∀ a ∈ l, goodArticle a := by
  intro fuel
  induction fuel with
  | zero => intro page acc tr out l h; simp [getNewsLoop] at h
  | succ n ih =>
      intro page acc tr out l h hl hacc
      unfold getNewsLoop at h
      split_ifs at h with hle
      · obtain rfl : (⟨.ok acc, tr⟩ : FetchOut) = out := by
          simpa using h
        obtain rfl : acc = l := by simpa using hl
        exact ⟨hle, hacc⟩
      · rcases hpage : get_news_page_from_stocknews scrape (fetch page) with e | batch
        · rw [hpage] at h
          obtain rfl : (⟨.error e, tr ++ [page]⟩ : FetchOut) = out := by simpa using h
          simp at hl
        · rw [hpage] at h
          refine ih (page + 1) (acc ++ batch) (tr ++ [page]) out l h hl ?_
          intro a ha
          rcases List.mem_append.mp ha with hmem | hmem
          · exact hacc a hmem
          · rw [(get_news_page_ok_inv scrape (fetch page) batch hpage).1] at hmem
            exact processEntries_good scrape _ a hmem

/-- C2: whenever `get_news_from_stocknews` terminates with a list (the
provider supplied enough non-filtered items within the attempted pages), the
list has length at least `items`, every element carries non-empty
`long_content`, and no element's URL contains the substring "youtube". -/
theorem get_news_result_length_and_filters (fetch : ℕ → PageResp)
    (scrape : String → Option String) (items fuel : ℕ) (out : FetchOut)
    (l : List Article)
    (h : get_news_from_stocknews fetch scrape items fuel = some out)
    (hl : out.result = .ok l) :
    items ≤ l.length
    ∧ ∀ a ∈ l, (∃ s, a.long_content = some s ∧ s ≠ "")
        ∧ containsSub a.url.toList "youtube".toList = false := by
  have := getNewsLoop_good fetch scrape items fuel 1 [] [] out l h hl
    (by intro a ha; simp at ha)
  exact ⟨this.1, fun a ha => (this.2 a ha : goodArticle a)⟩

/-- A concrete one-page provider and scraper for the C2 witness. -/
def c2entry : RawEntry := ⟨"https://news.example.com/a", "T", "teaser"⟩

def c2fetch : ℕ → PageResp := fun _ => ⟨200, [c2entry], ""⟩

def c2scrape : String → Option String := fun _ => some "scraped text"

def c2article : Article :=
  ⟨"https://news.example.com/a", "T", "teaser", some "scraped text", none⟩

/-- C2 witness: with a provider whose first page yields one surviving
article, a 1-item request returns that article and the guarantees hold. -/
theorem get_news_result_length_and_filters_witness :
    1 ≤ ([c2article] : List Article).length
    ∧ ∀ a ∈ ([c2article] : List Article),
        (∃ s, a.long_content = some s ∧ s ≠ "")
        ∧ containsSub a.url.toList "youtube".toList = false :=
  get_news_result_length_and_filters c2fetch c2scrape 1 2 ⟨.ok [c2article], [1]⟩
    [c2article] (by rfl) rfl

lemma getNewsLoop_error_spec (fetch : ℕ → PageResp)
    (scrape : String → Option String) (items : ℕ) :
    ∀ fuel m acc out,
      getNewsLoop fetch scrape items fuel (m + 1) acc (List.range' 1 m) = some out →
      (∀ q ∈ List.range' 1 m, (fetch q).status_code = 200) →
      ∀ p ∈ out.pages, (fetch p).status_code ≠ 200 →
        out.result = .error ("Error: " ++ toString (fetch p).status_code
            ++ " - " ++ (fetch p).text)
        ∧ out.pages = List.range' 1 p := by
  intro fuel
  induction fuel with
  | zero => intro m acc out h; simp [getNewsLoop] at h
  | succ n ih =>
      intro m acc out h hok p hp hbad
      unfold getNewsLoop at h
      split_ifs at h with hle
      · obtain rfl : (⟨.ok acc, List.range' 1 m⟩ : FetchOut) = out := by simpa using h
        exact absurd (hok p hp) hbad
      · rcases hpage : get_news_page_from_stocknews scrape (fetch (m + 1)) with e | batch
        · rw [hpage] at h
          obtain rfl : (⟨.error e, List.range' 1 m ++ [m + 1]⟩ : FetchOut) = out := by
            simpa using h
          obtain ⟨hs, he⟩ := get_news_page_error_inv scrape (fetch (m + 1)) e hpage
          rcases List.mem_append.mp hp with hin | hin
          · exact absurd (hok p hin) hbad
          · obtain rfl : p = m + 1 := by simpa using hin
            exact ⟨by rw [he], range'_snoc m⟩
        · rw [hpage] at h
          rw [range'_snoc m] at h
          refine ih (m + 1) (acc ++ batch) out h ?_ p hp hbad
          intro q hq
          rw [← range'_snoc m] at hq
          rcases List.mem_append.mp hq with hin | hin
          · exact hok q hin
          · obtain rfl : q = m + 1 := by simpa using hin
            exact (get_news_page_ok_inv scrape (fetch (m + 1)) batch hpage).2

/-- C8: if a whole `get_news_from_stocknews` call settles after requesting a
page `p` whose provider response is non-2xx, the call's result is the raised
exception `Error: {status} - {text}` — no partial list of already-collected
articles is returned — and the pages requested are exactly 1..p, each
requested once (no retry of any page). -/
theorem get_news_non2xx_page_fatal (fetch : ℕ → PageResp)
    (scrape : String → Option String) (items fuel : ℕ) (out : FetchOut) (p : ℕ)
    (h : get_news_from_stocknews fetch scrape items fuel = some out)
    (hp : p ∈ out.pages)
    (h2xx : ¬(200 ≤ (fetch p).status_code ∧ (fetch p).status_code ≤ 299)) :
    out.result = .error ("Error: " ++ toString (fetch p).status_code
        ++ " - " ++ (fetch p).text)
    ∧ out.pages = List.range' 1 p
    ∧ out.pages.Nodup := by
  have hbad : (fetch p).status_code ≠ 200 := by
    intro hs
    exact h2xx ⟨by omega, by omega⟩
  have hspec := getNewsLoop_error_spec fetch scrape items fuel 0 [] out h
    (by intro q hq; simp [List.range'] at hq) p hp hbad
  exact ⟨hspec.1, hspec.2, by rw [hspec.2]; exact List.nodup_range' 1 p⟩

/-- A provider whose first page fails with HTTP 404, for the C8 witness. -/
def c8fetch : ℕ → PageResp := fun _ => ⟨404, [], "not found"⟩

/-- C8 witness: requesting one item from the failing provider settles after
page 1 with the propagated exception and exactly one page requested. -/
theorem get_news_non2xx_page_fatal_witness :
    (⟨.error "Error: 404 - not found", [1]⟩ : FetchOut).result
        = .error ("Error: " ++ toString (c8fetch 1).status_code
            ++ " - " ++ (c8fetch 1).text)
    ∧ (⟨.error "Error: 404 - not found", [1]⟩ : FetchOut).pages = List.range' 1 1
    ∧ (⟨.error "Error: 404 - not found", [1]⟩ : FetchOut).pages.Nodup :=
  get_news_non2xx_page_fatal c8fetch c2scrape 1 3 ⟨.error "Error: 404 - not found", [1]⟩
    1 (by rfl) (by decide) (by decide)

lemma pageBatch_of_ok (fetch : ℕ → PageResp) (scrape : String → Option String)
    (p : ℕ) (batch : List Article)
    (h : get_news_page_from_stocknews scrape (fetch p) = .ok batch) :
    pageBatch fetch scrape p = batch := by
  unfold pageBatch
  rw [h]

lemma getNewsLoop_ok_spec (fetch : ℕ → PageResp)
    (scrape : String → Option String) (items : ℕ) :
    ∀ fuel m acc out,
      getNewsLoop fetch scrape items fuel (m + 1) acc (List.range' 1 m) = some out →
      acc = survivors fetch scrape m →
      (∀ j < m, (survivors fetch scrape j).length < items) →
      ∀ l, out.result = .ok l →
        ∃ k, out.pages = List.range' 1 k
          ∧ l = survivors fetch scrape k
          ∧ items ≤ l.length
          ∧ ∀ j < k, (survivors fetch scrape j).length < items := by
  intro fuel
  induction fuel with
  | zero => intro m acc out h; simp [getNewsLoop] at h
  | succ n ih =>
      intro m acc out h hacc hlt l hl
      unfold getNewsLoop at h
      split_ifs at h with hle
      · obtain rfl : (⟨.ok acc, List.range' 1 m⟩ : FetchOut) = out := by simpa using h
        obtain rfl : acc = l := by simpa using hl
        exact ⟨m, rfl, hacc, hle, hlt⟩
      · rcases hpage : get_news_page_from_stocknews scrape (fetch (m + 1)) with e | batch
        · rw [hpage] at h
          obtain rfl : (⟨.error e, List.range' 1 m ++ [m + 1]⟩ : FetchOut) = out := by
            simpa using h
          simp at hl
        · rw [hpage] at h
          rw [range'_snoc m] at h
          refine ih (m + 1) (acc ++ batch) out h ?_ ?_ l hl
          · rw [survivors_succ, hacc, pageBatch_of_ok fetch scrape (m + 1) batch hpage]
          · intro j hj
            rcases Nat.lt_succ_iff_lt_or_eq.mp hj with hj2 | hj2
            · exact hlt j hj2
            · subst hj2
              rw [← hacc]
              omega

/-- A provider every one of whose pages consists of a single item hosted on
youtube: every item on every page is filtered out. -/
def ytEntry : RawEntry := ⟨"https://youtube.com/watch?v=x", "t", "x"⟩

def ytFetch : ℕ → PageResp := fun _ => ⟨200, [ytEntry], ""⟩

lemma processEntries_yt (scrape : String → Option String) :
    processEntries scrape [ytEntry] = [] := by
  rw [processEntries]
  rw [if_pos (by decide)]
  rw [processEntries]

lemma getNewsLoop_yt_none (scrape : String → Option String) (items : ℕ) :
    ∀ fuel page acc tr, acc.length < items →
      getNewsLoop ytFetch scrape items fuel page acc tr = none := by
  intro fuel
  induction fuel with
  | zero => intro page acc tr h; rfl
  | succ n ih =>
      intro page acc tr h
      unfold getNewsLoop
      rw [if_neg (by omega)]
      have hpage : get_news_page_from_stocknews scrape (ytFetch page) = .ok [] := by
        unfold get_news_page_from_stocknews ytFetch
        rw [if_pos rfl, processEntries_yt]
      rw [hpage]
      exact ih (page + 1) (acc ++ []) (tr ++ [page]) (by simpa using h)

/-- C9: (a) whenever the pagination loop of `get_news_from_stocknews` returns
a list, it has requested exactly the pages 1..k for the first k at which the
cumulative count of surviving articles reaches `items` (every proper prefix
of pages had fewer than `items` survivors), and the list is exactly those
survivors; (b) there is no upper bound on pages: against a provider all of
whose items are filtered out, the loop never terminates — it returns `none`
for every amount of fuel whenever `items > 0`. -/
theorem get_news_pagination_unbounded :
    (∀ (fetch : ℕ → PageResp) (scrape : String → Option String)
        (items fuel : ℕ) (out : FetchOut) (l : List Article),
      get_news_from_stocknews fetch scrape items fuel = some out →
      out.result = .ok l →
      ∃ k, out.pages = List.range' 1 k
        ∧ l = survivors fetch scrape k
        ∧ items ≤ l.length
        ∧ ∀ j < k, (survivors fetch scrape j).length < items)
    ∧ (∀ (scrape : String → Option String) (items fuel : ℕ), 0 < items →
        get_news_from_stocknews ytFetch scrape items fuel = none) := by
  constructor
  · intro fetch scrape items fuel out l h hl
    exact getNewsLoop_ok_spec fetch scrape items fuel 0 [] out h rfl
      (by intro j hj; omega) l hl
  · intro scrape items fuel hi
    exact getNewsLoop_yt_none scrape items fuel 1 [] [] (by simpa using hi)

/-- C9 witness: part (a) at a one-page provider that satisfies a 1-item
request on page 1; part (b) at fuel 5. -/
theorem get_news_pagination_unbounded_witness :
    (∃ k, ([1] : List ℕ) = List.range' 1 k
      ∧ [c2article] = survivors c2fetch c2scrape k
      ∧ 1 ≤ ([c2article] : List Article).length
      ∧ ∀ j < k, (survivors c2fetch c2scrape j).length < 1)
    ∧ get_news_from_stocknews ytFetch c2scrape 1 5 = none := by
  constructor
  · exact get_news_pagination_unbounded.1 c2fetch c2scrape 1 2
      ⟨.ok [c2article], [1]⟩ [c2article] (by rfl) rfl
  · exact get_news_pagination_unbounded.2 c2scrape 1 5 (by norm_num)

/-! ## Summarization engine (`Article.summarize_long_content` /
`summarize_news`, service.py lines 138-153 and 203-205)

The LLM completion endpoint is a parameter from (title, long_content) — the
two article fields interpolated into the prompt — to either a raised
exception or the nullable `choices[0].message.content`.

`summarize_news` awaits `asyncio.gather(*tasks)` with the default
`return_exceptions=False` over coroutines that contain no `await` points
(the `create` call is synchronous): every task is scheduled before any runs,
each then runs to completion in list order, and the first exception is
re-raised when the gather is awaited.  So every non-failing article is
mutated in place, and the call then raises the first failure instead of
returning.  The embedding returns the mutated article list together with the
optional re-raised first exception.
-/

/-- `Article.summarize_long_content` (lines 138-153): on a raised provider
exception the mutation does not happen; on a response, the summary is written
to `long_content_summary` only when it is non-null and non-empty. -/
def Article.summarize_long_content
    (llm : String → Option String → Except String (Option String))
    (a : Article) : Except String Article :=
  match llm a.title a.long_content with
  | .error e => .error e
  | .ok summary =>
      .ok (match summary with
        | some s => if s.length > 0 then { a with long_content_summary := some s } else a
        | none => a)

/-- One gathered task: the mutated article (unchanged if the task raised)
together with the exception it raised, if any. -/
def gatherOutcome (llm : String → Option String → Except String (Option String))
    (a : Article) : Article × Option String :=
  match a.summarize_long_content llm with
  | .ok b => (b, none)
  | .error e => (a, some e)

/-- `summarize_news` (lines 203-205): run every per-article task, keep every
in-place mutation, and re-raise the first exception (if any) at the
`gather` join. -/
def summarize_news (llm : String → Option String → Except String (Option String))
    (articles : List Article) : List Article × Option String :=
  ((articles.map (gatherOutcome llm)).map Prod.fst,
   ((articles.map (gatherOutcome llm)).map Prod.snd).findSome? id)

/-- Three articles with scraped content; the LLM call is made to fail on
exactly the middle one. -/
def c1llm : String → Option String → Except String (Option String) :=
  fun title _ => if title = "b" then .error "boom" else .ok (some "summary")

def c1articles : List Article :=
  [⟨"u1", "a", "s", some "c", none⟩,
   ⟨"u2", "b", "s", some "c", none⟩,
   ⟨"u3", "c", "s", some "c", none⟩]

/-- C1 counterexample: for a batch of 3 articles in which exactly one
summarization request fails, `summarize_news` does NOT complete normally:
`asyncio.gather` re-raises the failure at the join, so the batch call aborts
with the exception (the second component is the re-raised error, not
`none`). -/
theorem summarize_news_one_failure_counterexample :
    (summarize_news c1llm c1articles).2 = some "boom"
    ∧ (summarize_news c1llm c1articles).2 ≠ none := by
  refine ⟨by decide, by decide⟩

/-- C1 amended: for a batch in which exactly one summarization request fails
(all others succeed with a non-empty summary), every task still runs — the
other N−1 article records do receive their populated `long_content_summary`
in place — but the failure aborts the batch: `summarize_news` re-raises the
failing task's exception instead of completing normally. -/
theorem summarize_news_one_failure_mutates_then_raises
    (llm : String → Option String → Except String (Option String))
    (pre post : List Article) (bad : Article) (e : String)
    (hpre : ∀ a ∈ pre, ∃ s, llm a.title a.long_content = .ok (some s) ∧ s.length > 0)
    (hbad : llm bad.title bad.long_content = .error e)
    (hpost : ∀ a ∈ post, ∃ s, llm a.title a.long_content = .ok (some s) ∧ s.length > 0) :
    (summarize_news llm (pre ++ bad :: post)).1
      = pre.map (fun a => (gatherOutcome llm a).1)
        ++ bad :: post.map (fun a => (gatherOutcome llm a).1)
    ∧ (∀ a ∈ pre ++ post, ((gatherOutcome llm a).1).long_content_summary.isSome)
    ∧ (summarize_news llm (pre ++ bad :: post)).2 = some e := by
  have hbadOut : gatherOutcome llm bad = (bad, some e) := by
    unfold gatherOutcome Article.summarize_long_content
    rw [hbad]
  have hsOut : ∀ a, (∃ s, llm a.title a.long_content = .ok (some s) ∧ s.length > 0) →
      (gatherOutcome llm a).2 = none ∧ ((gatherOutcome llm a).1).long_content_summary.isSome := by
    intro a ⟨s, hs, hlen⟩
    unfold gatherOutcome Article.summarize_long_content
    rw [hs]
    simp [hlen]
  refine ⟨?_, ?_, ?_⟩
  · simp only [summarize_news, List.map_append, List.map_cons, List.map_map, hbadOut]
    rfl
  · intro a ha
    rcases List.mem_append.mp ha with hm | hm
    · exact (hsOut a (hpre a hm)).2
    · exact (hsOut a (hpost a hm)).2
  · simp only [summarize_news, List.map_append, List.map_cons, hbadOut]
    rw [List.findSome?_append]
    have hnone : List.findSome? id (List.map Prod.snd (List.map (gatherOutcome llm) pre)) = none := by
      rw [List.findSome?_eq_none_iff]
      intro o ho
      simp only [List.map_map, List.mem_map] at ho
      obtain ⟨a, ha, rfl⟩ := ho
      simpa using (hsOut a (hpre a ha)).1
    rw [hnone]
    simp

/-- Concrete data for the C1 witness: articles "a" and "c" succeed, "b"
fails. -/
def c1pre : List Article := [⟨"u1", "a", "s", some "c", none⟩]

def c1bad : Article := ⟨"u2", "b", "s", some "c", none⟩

def c1post : List Article := [⟨"u3", "c", "s", some "c", none⟩]

/-- C1 witness: the amended theorem at the concrete three-article batch. -/
theorem summarize_news_one_failure_mutates_then_raises_witness :
    (summarize_news c1llm (c1pre ++ c1bad :: c1post)).1
      = c1pre.map (fun a => (gatherOutcome c1llm a).1)
        ++ c1bad :: c1post.map (fun a => (gatherOutcome c1llm a).1)
    ∧ (∀ a ∈ c1pre ++ c1post, ((gatherOutcome c1llm a).1).long_content_summary.isSome)
    ∧ (summarize_news c1llm (c1pre ++ c1bad :: c1post)).2 = some "boom" :=
  summarize_news_one_failure_mutates_then_raises c1llm c1pre c1post c1bad "boom"
    (by
      intro a ha
      simp only [c1pre, List.mem_singleton] at ha
      subst ha
      exact ⟨"summary", rfl, by decide⟩)
    rfl
    (by
      intro a ha
      simp only [c1post, List.mem_singleton] at ha
      subst ha
      exact ⟨"summary", rfl, by decide⟩)

/-! ## The `/news/summarized` route (`get_news_summarized_route`,
service.py lines 279-314)

`fetch_and_summarize_news` (the whole upstream pipeline: listing pages,
scraping, summarizing) is a parameter from (ticker, items) to the produced
article list or a raised exception.  The process-wide mutable state — the
`summarize_dict` cache and, for the claims about upstream traffic, a counter
of upstream pipeline invocations — is passed explicitly.  Query parameters
arrive already parsed (`count` as an optional natural number; the `int(count)`
conversion is not at issue in the claims).  JSON serialization of a response
body is deterministic, so byte-identical bodies are modelled as equal body
values. -/

/-- One `{url, title, summary}` object of the route's response (lines
300-305). -/
structure SumResp where
  url : String
  title : String
  summary : Option String
deriving DecidableEq

/-- A JSON response body: `{'news': …}` or `{'error': …}`. -/
inductive NewsBody where
  | news : List SumResp → NewsBody
  | err : String → NewsBody
deriving DecidableEq

/-- The HTTP response of the route: body and status code. -/
structure RouteOut where
  body : NewsBody
  status : ℕ
deriving DecidableEq

/-- The process state owned by the HTTP surface: the `summarize_dict` cache
(line 279, an insertion dictionary keyed by ticker) and the number of
`fetch_and_summarize_news` invocations made so far (upstream traffic). -/
structure ServiceState where
  summarize_dict : List (String × List SumResp)
  upstream_calls : ℕ
deriving DecidableEq

/-- The response entry built from one article (lines 301-305). -/
def articleToResp (a : Article) : SumResp :=
  ⟨a.url, a.title, a.long_content_summary⟩

/-- `get_news_summarized_route` (lines 282-314): missing ticker gives a 400
error; a cached ticker is served from `summarize_dict` with no upstream call
(`summarize_dict.get(ticker) is not None`, line 291, and the stored values
are always lists, never `None`); otherwise `fetch_and_summarize_news` runs
with `count` defaulting to 3, its exception becomes a 500 error (the `except`
of line 313), and its result is serialized, cached and returned. -/
def get_news_summarized_route
    (upstream : String → ℕ → Except String (List Article))
    (ticker : Option String) (count : Option ℕ) (st : ServiceState) :
    RouteOut × ServiceState :=
  match ticker with
  | none => (⟨.err "Ticker not provided", 400⟩, st)
  | some t =>
      match st.summarize_dict.lookup t with
      | some v => (⟨.news v, 200⟩, st)
      | none =>
          match upstream t (count.getD 3) with
          | .error e =>
              (⟨.err e, 500⟩, ⟨st.summarize_dict, st.upstream_calls + 1⟩)
          | .ok arts =>
              (⟨.news (arts.map articleToResp), 200⟩,
               ⟨(t, arts.map articleToResp) :: st.summarize_dict,
                st.upstream_calls + 1⟩)

/-- C10: the cache is keyed on the ticker alone and ignores `count`: for any
cached ticker, a request with any `count` whatsoever returns the cached
entry with status 200 and leaves the state — cache and upstream-call
counter — unchanged (zero upstream listing, scraping or summarization
calls). -/
theorem route_cache_ignores_count
    (upstream : String → ℕ → Except String (List Article))
    (t : String) (c : Option ℕ) (v : List SumResp) (st : ServiceState)
    (h : st.summarize_dict.lookup t = some v) :
    get_news_summarized_route upstream (some t) c st = (⟨.news v, 200⟩, st) := by
  simp only [get_news_summarized_route]
  rw [h]

/-- Concrete state for the C10 witness: ticker "IBM" cached with one entry
created by an earlier 3-item request. -/
def c10resp : SumResp := ⟨"u", "t", some "s"⟩

def c10state : ServiceState := ⟨[("IBM", [c10resp])], 1⟩

def c10upstream : String → ℕ → Except String (List Article) :=
  fun _ _ => .ok []

/-- C10 witness: a later request for the cached ticker with a much larger
`count` (50) still returns the cached entry and does not touch the state. -/
theorem route_cache_ignores_count_witness :
    get_news_summarized_route c10upstream (some "IBM") (some 50) c10state
      = (⟨.news [c10resp], 200⟩, c10state) :=
  route_cache_ignores_count c10upstream "IBM" (some 50) [c10resp] c10state rfl

/-- C3 counterexample: cache idempotence does not hold for every ticker
unconditionally.  With an upstream pipeline that raises, the first request
caches nothing (only a 200 result is stored), so the second identical
request issues another upstream call: the upstream-call counter goes from 1
to 2, refuting "the second request issues zero upstream … calls". -/
theorem route_cache_idempotence_counterexample :
    (get_news_summarized_route (fun _ _ => .error "boom") (some "IBM") none
        ((get_news_summarized_route (fun _ _ => .error "boom") (some "IBM") none
          ⟨[], 0⟩).2)).2.upstream_calls = 2
    ∧ (get_news_summarized_route (fun _ _ => .error "boom") (some "IBM") none
        ⟨[], 0⟩).2.upstream_calls = 1 := by
  refine ⟨rfl, rfl⟩

/-- C3 amended: for every ticker whose first `/news/summarized` request
succeeds (status 200 — either served from cache or stored in the cache on
the way out), a second request for the same ticker (any `count`) returns the
byte-identical body and the identical status, performs zero upstream
listing/scraping/summarization calls, and leaves the state unchanged. -/
theorem route_cache_idempotent_after_success
    (upstream : String → ℕ → Except String (List Article))
    (t : String) (c1 c2 : Option ℕ) (st : ServiceState)
    (h : (get_news_summarized_route upstream (some t) c1 st).1.status = 200) :
    get_news_summarized_route upstream (some t) c2
        ((get_news_summarized_route upstream (some t) c1 st).2)
      = ((get_news_summarized_route upstream (some t) c1 st).1,
         (get_news_summarized_route upstream (some t) c1 st).2)
    ∧ ((get_news_summarized_route upstream (some t) c2
          ((get_news_summarized_route upstream (some t) c1 st).2)).2).upstream_calls
      = ((get_news_summarized_route upstream (some t) c1 st).2).upstream_calls := by
  rcases hl : st.summarize_dict.lookup t with _ | v
  · rcases hup : upstream t (c1.getD 3) with e | arts
    · exfalso
      have : (get_news_summarized_route upstream (some t) c1 st).1.status = 500 := by
        simp only [get_news_summarized_route]
        rw [hl, hup]
      rw [this] at h
      exact absurd h (by norm_num)
    · have h1 : get_news_summarized_route upstream (some t) c1 st
          = (⟨.news (arts.map articleToResp), 200⟩,
             ⟨(t, arts.map articleToResp) :: st.summarize_dict,
              st.upstream_calls + 1⟩) := by
        simp only [get_news_summarized_route]
        rw [hl, hup]
      rw [h1]
      have h2 : get_news_summarized_route upstream (some t) c2
          (⟨(t, arts.map articleToResp) :: st.summarize_dict,
            st.upstream_calls + 1⟩ : ServiceState)
          = (⟨.news (arts.map articleToResp), 200⟩,
             ⟨(t, arts.map articleToResp) :: st.summarize_dict,
              st.upstream_calls + 1⟩) := by
        simp only [get_news_summarized_route]
        simp [List.lookup]
      rw [h2]
      exact ⟨rfl, rfl⟩
  · have h1 : get_news_summarized_route upstream (some t) c1 st
        = (⟨.news v, 200⟩, st) := by
      simp only [get_news_summarized_route]
      rw [hl]
    have h2 : get_news_summarized_route upstream (some t) c2 st
        = (⟨.news v, 200⟩, st) := by
      simp only [get_news_summarized_route]
      rw [hl]
    rw [h1, h2]
    exact ⟨rfl, rfl⟩

/-- Upstream pipeline for the C3 witness: one article, summarized. -/
def c3upstream : String → ℕ → Except String (List Article) :=
  fun _ _ => .ok [⟨"u", "t", "sc", some "long", some "sum"⟩]

/-- C3 witness: starting from an empty cache, a successful first request
makes the second request (same ticker) a pure cache hit: identical output
pair and no change in upstream calls. -/
theorem route_cache_idempotent_after_success_witness :
    get_news_summarized_route c3upstream (some "IBM") none
        ((get_news_summarized_route c3upstream (some "IBM") none ⟨[], 0⟩).2)
      = ((get_news_summarized_route c3upstream (some "IBM") none ⟨[], 0⟩).1,
         (get_news_summarized_route c3upstream (some "IBM") none ⟨[], 0⟩).2)
    ∧ ((get_news_summarized_route c3upstream (some "IBM") none
          ((get_news_summarized_route c3upstream (some "IBM") none ⟨[], 0⟩).2)).2).upstream_calls
      = ((get_news_summarized_route c3upstream (some "IBM") none ⟨[], 0⟩).2).upstream_calls :=
  route_cache_idempotent_after_success c3upstream "IBM" none none ⟨[], 0⟩ rfl
